import Mathlib

/-!
Verification of the alert lifecycle and notification-throttling engine of an
EV fleet monitoring platform.  The definitions below are a shallow embedding
of the JavaScript source:

* `backend/src/services/alert.state.manager.js` — the notification state
  machine (`AlertStateManager`),
* `backend/src/alerts/alert.service.js`        — the alert service with its
  deduplication cache (`AlertService`),
* the WebSocket broadcaster (`Broadcaster`) with its telemetry throttle and
  periodic summary broadcast,
* `backend/src/db/schema.sql`                  — the constraints the alerts
  table places on the durable store.

Time is modelled as `Int` (JavaScript `Date.now()` milliseconds); JavaScript
`Map`s are modelled as association lists with `Map.set` insert-or-update
semantics; JavaScript `Set`s as duplicate-free lists.
-/

/-- Association-list lookup, modelling JavaScript `Map.prototype.get`. -/
def mapGet {α : Type} (m : List (String × α)) (k : String) : Option α :=
  (m.find? (fun p => p.1 = k)).map (·.2)

/-- Association-list update, modelling JavaScript `Map.prototype.set`:
replace the binding in place when the key is present, append otherwise. -/
def mapSet {α : Type} : List (String × α) → String → α → List (String × α)
  | [], k, v => [(k, v)]
  | (k', v') :: rest, k, v =>
      if k' = k then (k, v) :: rest else (k', v') :: mapSet rest k v

/-- Association-list deletion, modelling JavaScript `Map.prototype.delete`. -/
def mapDelete {α : Type} (m : List (String × α)) (k : String) : List (String × α) :=
  m.filter (fun p => ¬ p.1 = k)

/-- Alert severities (`severity` column values, `severityRank` keys in
`alert.state.manager.js`). -/
inductive Severity where
  | INFO
  | WARNING
  | CRITICAL
deriving DecidableEq, Repr

/-- `severityRank` from `analyzeStateChange`: `{ INFO: 1, WARNING: 2, CRITICAL: 3 }`. -/
def severityRank : Severity → Nat
  | .INFO => 1
  | .WARNING => 2
  | .CRITICAL => 3

/-- The state-change categories returned by `analyzeStateChange`. -/
inductive StateChange where
  | new_alert
  | severity_escalation
  | severity_deescalation
  | persistent_issue
  | repeated_alert
deriving DecidableEq, Repr

/-- Per-(vehicle, alert_type) tracking state
(`{severity, first_seen, last_updated, count, last_notified_severity}` in
`alert.state.manager.js`). -/
structure AlertState where
  severity : Severity
  first_seen : Int
  last_updated : Int
  count : Nat
  last_notified_severity : Option Severity
deriving DecidableEq, Repr

/-- The mutable state of the `AlertStateManager` singleton:
`vehicleAlertStates : Map<vehicle_id, Map<alert_type, AlertState>>`,
`escalatedVehicles : Set<vehicle_id>`,
`lastVisualUpdate : Map<vehicle_id + "-" + alert_type, timestamp>`. -/
structure AlertStateManager where
  vehicleAlertStates : List (String × List (String × AlertState))
  escalatedVehicles : List String
  lastVisualUpdate : List (String × Int)
deriving DecidableEq, Repr

/-- `VISUAL_UPDATE_THROTTLE_MS = 2000` in the constructor. -/
def VISUAL_UPDATE_THROTTLE_MS : Int := 2000

/-- The state manager as constructed (all maps empty). -/
def emptyManager : AlertStateManager :=
  { vehicleAlertStates := [], escalatedVehicles := [], lastVisualUpdate := [] }

/-- `analyzeStateChange(existingState, newAlert)`:
`new_alert` when there is no prior state for the key; otherwise escalation or
de-escalation by severity rank; otherwise `persistent_issue` when the stored
(pre-increment) `count` satisfies `count >= 10 && count % 10 === 0`;
otherwise `repeated_alert`. -/
def analyzeStateChange (existingState : Option AlertState) (newSeverity : Severity) :
    StateChange :=
  match existingState with
  | none => .new_alert
  | some s =>
      if severityRank newSeverity > severityRank s.severity then .severity_escalation
      else if severityRank newSeverity < severityRank s.severity then .severity_deescalation
      else if s.count ≥ 10 ∧ s.count % 10 = 0 then .persistent_issue
      else .repeated_alert

/-- `shouldTriggerVisualNotification(vehicleId, alertType, stateChange, timestamp)`:
a hard 2-second throttle against the key's `lastVisualUpdate` entry (absent
entry reads as `0`), then always-notify for `new_alert` / `severity_escalation`
/ `persistent_issue`, and a 30-second quiet-period rule for `repeated_alert`. -/
def shouldTriggerVisualNotification (m : AlertStateManager)
    (vehicleId alertType : String) (stateChange : StateChange) (timestamp : Int) : Bool :=
  let lastUpdate := (mapGet m.lastVisualUpdate (vehicleId ++ "-" ++ alertType)).getD 0
  if timestamp - lastUpdate < VISUAL_UPDATE_THROTTLE_MS then false
  else if stateChange = .new_alert ∨ stateChange = .severity_escalation then true
  else if stateChange = .persistent_issue then true
  else if stateChange = .repeated_alert then decide (timestamp - lastUpdate > 30000)
  else false

/-- The `{ shouldNotify, stateChange, alertCount }` portion of the object
returned by `processAlert` (the floating-point `visualImpact` payload is not
needed by any claim and is left unmodelled). -/
structure ProcessResult where
  shouldNotify : Bool
  stateChange : StateChange
  alertCount : Nat
deriving DecidableEq, Repr

/-- `processAlert(alert)` for an alert event `{vehicle_id, alert_type, severity}`
arriving at time `now` (`Date.now()` in the source): looks up the existing
state, classifies the change, stores the updated state (count incremented,
`first_seen` preserved — JavaScript `existingState?.first_seen || now`, where
a stored `0` is falsy), decides notification, and on notification records
`last_notified_severity` (the stored object is mutated after insertion, so
the stored state carries the update) and stamps `lastVisualUpdate`. -/
def processAlert (m : AlertStateManager) (vehicle_id alert_type : String)
    (severity : Severity) (now : Int) : ProcessResult × AlertStateManager :=
  let vehicleStates := (mapGet m.vehicleAlertStates vehicle_id).getD []
  let existingState := mapGet vehicleStates alert_type
  let stateChange := analyzeStateChange existingState severity
  let first_seen :=
    match existingState with
    | some s => if s.first_seen = 0 then now else s.first_seen
    | none => now
  let count := (match existingState with | some s => s.count | none => 0) + 1
  let shouldNotify := shouldTriggerVisualNotification m vehicle_id alert_type stateChange now
  let newState : AlertState :=
    { severity := severity
      first_seen := first_seen
      last_updated := now
      count := count
      last_notified_severity :=
        if shouldNotify then some severity
        else existingState.bind (·.last_notified_severity) }
  let vehicleStates' := mapSet vehicleStates alert_type newState
  let m' : AlertStateManager :=
    { vehicleAlertStates := mapSet m.vehicleAlertStates vehicle_id vehicleStates'
      escalatedVehicles := m.escalatedVehicles
      lastVisualUpdate :=
        if shouldNotify then mapSet m.lastVisualUpdate (vehicle_id ++ "-" ++ alert_type) now
        else m.lastVisualUpdate }
  (⟨shouldNotify, stateChange, count⟩, m')

/-- `markVehicleEscalated(vehicleId)`: `Set.prototype.add`. -/
def markVehicleEscalated (m : AlertStateManager) (vehicleId : String) : AlertStateManager :=
  { m with
    escalatedVehicles :=
      if m.escalatedVehicles.contains vehicleId then m.escalatedVehicles
      else m.escalatedVehicles ++ [vehicleId] }

/-- `EXPIRY_TIME = 3600000` (1 hour) in `cleanup`. -/
def EXPIRY_TIME : Int := 3600000

/-- `cleanup()` at time `now`: for every vehicle, delete the alert-type states
with `now - last_updated > EXPIRY_TIME`; when a vehicle's state map becomes
empty, delete the vehicle from `vehicleAlertStates` *and* from
`escalatedVehicles`. -/
def cleanup (m : AlertStateManager) (now : Int) : AlertStateManager :=
  let cleaned := m.vehicleAlertStates.map
    (fun p => (p.1, p.2.filter (fun q => ¬ now - q.2.last_updated > EXPIRY_TIME)))
  let removedVehicles := (cleaned.filter (fun p => p.2 = [])).map (·.1)
  { vehicleAlertStates := cleaned.filter (fun p => ¬ p.2 = [])
    escalatedVehicles := m.escalatedVehicles.filter (fun v => ¬ removedVehicles.contains v)
    lastVisualUpdate := m.lastVisualUpdate }

/-- Fold `processAlert` over a list of `(severity, timestamp)` events for one
(vehicle, alert_type) key, collecting each event's result in order. -/
def runAlerts (m : AlertStateManager) (vehicle_id alert_type : String) :
    List (Severity × Int) → List ProcessResult × AlertStateManager
  | [] => ([], m)
  | (sev, t) :: rest =>
      let step := processAlert m vehicle_id alert_type sev t
      let tail := runAlerts step.2 vehicle_id alert_type rest
      (step.1 :: tail.1, tail.2)

/-!  ## Alert service (`backend/src/alerts/alert.service.js`)  -/

/-- A row of the `alerts` table (`backend/src/db/schema.sql`): `alert_id UUID
PRIMARY KEY`, `vehicle_id` referencing `vehicles`, `alert_type`/`severity`/
`message` `NOT NULL`, nullable `acknowledged_at` and `resolved_at`.  `data`
(opaque JSONB snapshot) is modelled as a string. -/
structure AlertRow where
  alert_id : String
  vehicle_id : String
  alert_type : String
  severity : Severity
  message : String
  data : String
  created_at : Int
  acknowledged_at : Option Int
  resolved_at : Option Int
deriving DecidableEq, Repr

/-- A `Deduplication Cache` entry: `{ alertId, createdAt }`. -/
structure CacheEntry where
  alertId : String
  createdAt : Int
deriving DecidableEq, Repr

/-- The `stats` counters of `AlertService`. -/
structure AlertStats where
  cacheHits : Nat
  cacheMisses : Nat
  alertsCreated : Nat
  alertsResolved : Nat
deriving DecidableEq, Repr

/-- The mutable state of the `AlertService` singleton:
`activeAlertsCache : Map<vehicleId_alertType, CacheEntry>` plus the stats. -/
structure AlertService where
  activeAlertsCache : List (String × CacheEntry)
  stats : AlertStats
deriving DecidableEq, Repr

/-- `CACHE_TTL_MS = 5 * 60 * 1000`. -/
def CACHE_TTL_MS : Int := 5 * 60 * 1000

/-- `getCacheKey(vehicleId, alertType)`. -/
def getCacheKey (vehicleId alertType : String) : String :=
  vehicleId ++ "_" ++ alertType

/-- `getCachedAlert(vehicleId, alertType)` at time `now`: a present entry with
age `< CACHE_TTL_MS` is returned and counted as a hit; a present entry at or
past the TTL is deleted and execution falls through to the miss counter; an
absent entry is a miss. -/
def getCachedAlert (s : AlertService) (vehicleId alertType : String) (now : Int) :
    Option CacheEntry × AlertService :=
  match mapGet s.activeAlertsCache (getCacheKey vehicleId alertType) with
  | some cached =>
      if now - cached.createdAt < CACHE_TTL_MS then
        (some cached, { s with stats := { s.stats with cacheHits := s.stats.cacheHits + 1 } })
      else
        (none,
          { activeAlertsCache := mapDelete s.activeAlertsCache (getCacheKey vehicleId alertType)
            stats := { s.stats with cacheMisses := s.stats.cacheMisses + 1 } })
  | none =>
      (none, { s with stats := { s.stats with cacheMisses := s.stats.cacheMisses + 1 } })

/-- `setCachedAlert(vehicleId, alertType, alertId)` at time `now`. -/
def setCachedAlert (s : AlertService) (vehicleId alertType alertId : String) (now : Int) :
    AlertService :=
  { s with
    activeAlertsCache :=
      mapSet s.activeAlertsCache (getCacheKey vehicleId alertType) ⟨alertId, now⟩ }

/-- `removeCachedAlert(vehicleId, alertType)`. -/
def removeCachedAlert (s : AlertService) (vehicleId alertType : String) : AlertService :=
  { s with activeAlertsCache := mapDelete s.activeAlertsCache (getCacheKey vehicleId alertType) }

/-- `cleanupCache()` at time `now`: delete every entry with
`now - createdAt > CACHE_TTL_MS`. -/
def cleanupCache (s : AlertService) (now : Int) : AlertService :=
  { s with
    activeAlertsCache :=
      s.activeAlertsCache.filter (fun p => ¬ now - p.2.createdAt > CACHE_TTL_MS) }

/-- The `WHERE` predicate of the dedup fallback query in `getExistingAlert`:
`vehicle_id = $1 AND alert_type = $2 AND resolved_at IS NULL AND
created_at >= NOW() - INTERVAL '5 minutes'`. -/
def unresolvedRecentMatch (vehicleId alertType : String) (now : Int) (r : AlertRow) : Bool :=
  r.vehicle_id = vehicleId && r.alert_type = alertType && r.resolved_at = none &&
    r.created_at ≥ now - CACHE_TTL_MS

/-- The store's `SELECT ... LIMIT 1` for the dedup fallback, over a table
modelled as a row list. -/
def dbFindUnresolved (db : List AlertRow) (vehicleId alertType : String) (now : Int) :
    Option AlertRow :=
  db.find? (unresolvedRecentMatch vehicleId alertType now)

/-- `getExistingAlert(vehicleId, alertType)` at time `now`: cache first (the
hit returns the minimal `{ alert_id }` descriptor, modelled by its
`alert_id`); on miss query the store, populate the cache on a store hit, and
return the row's id (or nothing). -/
def getExistingAlert (s : AlertService) (db : List AlertRow)
    (vehicleId alertType : String) (now : Int) : Option String × AlertService :=
  match getCachedAlert s vehicleId alertType now with
  | (some cached, s') => (some cached.alertId, s')
  | (none, s') =>
      match dbFindUnresolved db vehicleId alertType now with
      | some row => (some row.alert_id, setCachedAlert s' vehicleId alertType row.alert_id now)
      | none => (none, s')

/-- The store effect of `createAlert`'s `INSERT INTO alerts ... RETURNING *`:
the row is appended unconditionally — the schema has no conflict target that
could reject it. -/
def insertAlert (db : List AlertRow) (row : AlertRow) : List AlertRow :=
  db ++ [row]

/-- The service effect of `createAlert(vehicleId, rule, data)` after the
insert: feed the state manager, register the cache entry, bump the creation
counter (the broadcast consults `stateResult.shouldNotify`). -/
def createAlertService (s : AlertService) (m : AlertStateManager)
    (vehicleId alertType : String) (severity : Severity) (alertId : String) (now : Int) :
    AlertService × AlertStateManager × ProcessResult :=
  let step := processAlert m vehicleId alertType severity now
  let s' := setCachedAlert s vehicleId alertType alertId now
  (( { s' with stats := { s'.stats with alertsCreated := s'.stats.alertsCreated + 1 } }),
   step.2, step.1)

/-- The `UPDATE ... SET resolved_at = NOW() WHERE ... resolved_at IS NULL` of
`resolveAlert`, returning the updated table and the affected `rowCount`. -/
def dbResolveUnresolved (db : List AlertRow) (vehicleId alertType : String) (now : Int) :
    List AlertRow × Nat :=
  (db.map (fun r =>
      if r.vehicle_id = vehicleId && r.alert_type = alertType && r.resolved_at = none then
        { r with resolved_at := some now }
      else r),
   db.countP (fun r =>
      r.vehicle_id = vehicleId && r.alert_type = alertType && r.resolved_at = none))

/-- `resolveAlert(vehicleId, alertType)` at time `now`: run the update, remove
the cache entry regardless of the store result, and bump the resolution
counter only when `rowCount > 0`. -/
def resolveAlert (s : AlertService) (db : List AlertRow)
    (vehicleId alertType : String) (now : Int) : AlertService × List AlertRow :=
  let upd := dbResolveUnresolved db vehicleId alertType now
  let s' := removeCachedAlert s vehicleId alertType
  (if upd.2 > 0 then
     { s' with stats := { s'.stats with alertsResolved := s'.stats.alertsResolved + 1 } }
   else s',
   upd.1)

/-!  ## Durable-store constraints (`backend/src/db/schema.sql`)  -/

/-- Everything `schema.sql` requires of the `alerts` table: `alert_id` is the
primary key (pairwise distinct) and `vehicle_id` references a registered
vehicle.  All other statements of the DDL are plain (non-unique) indexes;
`NOT NULL` columns are non-optional fields of `AlertRow`. -/
def alertsTableOk (vehicles : List String) (tbl : List AlertRow) : Prop :=
  tbl.Pairwise (fun r1 r2 => r1.alert_id ≠ r2.alert_id) ∧
  ∀ r ∈ tbl, r.vehicle_id ∈ vehicles

instance (vehicles : List String) (tbl : List AlertRow) :
    Decidable (alertsTableOk vehicles tbl) := by
  unfold alertsTableOk
  infer_instance

/-- Modelled from the spec: the uniqueness guarantee the specification says
the durable store enforces — "for a given (`vehicle_id`, `alert_type`), at
most one row has `resolved_at IS NULL`".  Stated from the spec's words so it
can be compared with what `schema.sql` actually enforces. -/
def atMostOneUnresolved (tbl : List AlertRow) : Prop :=
  ∀ r1 ∈ tbl, ∀ r2 ∈ tbl,
    r1.vehicle_id = r2.vehicle_id → r1.alert_type = r2.alert_type →
    r1.resolved_at = none → r2.resolved_at = none → r1 = r2

instance (tbl : List AlertRow) : Decidable (atMostOneUnresolved tbl) := by
  unfold atMostOneUnresolved
  infer_instance

/-!  ## Broadcaster (WebSocket fan-out with throttling)  -/

/-- The value-compared alert summary assembled by `getAlertSummary`
(`JSON.stringify` comparison in the broadcaster is structural equality on
this value). -/
structure AlertSummary where
  totalActiveAlerts : Nat
  criticalVehicles : Nat
  warningVehicles : Nat
  totalVehiclesWithAlerts : Nat
  alertCountsByType : List (String × Severity × Nat)
deriving DecidableEq, Repr

/-- A `telemetry_update` relay payload `{ vehicle_id, data, timestamp }`. -/
structure TelemetryPayload where
  vehicle_id : String
  data : String
  timestamp : Int
deriving DecidableEq, Repr

/-- The mutable state of the `Broadcaster` singleton: whether `init(io)` has
run, `lastBroadcastTimes : Map<vehicle_id, timestamp>` for the telemetry
throttle, and `lastSummary` for the change-detected summary broadcast. -/
structure Broadcaster where
  ioInit : Bool
  lastBroadcastTimes : List (String × Int)
  lastSummary : Option AlertSummary
deriving DecidableEq, Repr

/-- `THROTTLE_MS = 500` ("2 updates per second"). -/
def THROTTLE_MS : Int := 500

/-- `SUMMARY_BROADCAST_INTERVAL_MS = 3000` (the 3-second summary tick). -/
def SUMMARY_BROADCAST_INTERVAL_MS : Int := 3000

/-- `broadcastTelemetry(vehicleId, telemetry)` at time `now`, against the
read-only subscription registry `subs`: bail out when `io` is unset, when the
vehicle's 500 ms window has not elapsed (the sample is dropped, nothing is
queued and the timestamp map is untouched), or when nobody subscribes; else
emit the payload to the subscribers and stamp `lastBroadcastTimes`. -/
def broadcastTelemetry (b : Broadcaster) (subs : String → List String)
    (vehicleId : String) (data : String) (timestamp : Int) (now : Int) :
    Option TelemetryPayload × Broadcaster :=
  if b.ioInit then
    if now - (mapGet b.lastBroadcastTimes vehicleId).getD 0 < THROTTLE_MS then (none, b)
    else if subs vehicleId = [] then (none, b)
    else
      (some ⟨vehicleId, data, timestamp⟩,
       { b with lastBroadcastTimes := mapSet b.lastBroadcastTimes vehicleId now })
  else (none, b)

/-- One tick of `broadcastAlertSummary()`.  `fetched` is the result of
`alertApiService.getAlertSummary()` (`none` models the query throwing — the
`catch` swallows it and nothing is emitted).  The fresh summary is emitted to
all clients exactly when it differs from `lastSummary`, which is then
updated. -/
def broadcastAlertSummary (b : Broadcaster) (fetched : Option AlertSummary) :
    Option AlertSummary × Broadcaster :=
  if b.ioInit then
    match fetched with
    | none => (none, b)
    | some summary =>
        if some summary = b.lastSummary then (none, b)
        else (some summary, { b with lastSummary := some summary })
  else (none, b)

/-!  ## Map lemmas  -/

theorem mapGet_set_self {α : Type} (m : List (String × α)) (k : String) (v : α) :
    mapGet (mapSet m k v) k = some v := by
  induction m with
  | nil => simp [mapGet, mapSet]
  | cons p rest ih =>
      by_cases h : p.1 = k
      · simp [mapSet, h, mapGet]
      · simpa [mapSet, h, mapGet, List.find?] using ih

theorem mapGet_delete_self {α : Type} (m : List (String × α)) (k : String) :
    mapGet (mapDelete m k) k = none := by
  have hfind : List.find? (fun p => decide (p.1 = k)) (mapDelete m k) = none := by
    rw [List.find?_eq_none]
    intro p hp
    have := List.of_mem_filter hp
    simpa using this
  rw [mapGet, hfind]
  rfl

/-- The last visual-update time recorded for a (vehicle, alert_type) key,
with an absent entry reading as `0`, as in `shouldTriggerVisualNotification`. -/
def lvOf (m : AlertStateManager) (vehicleId alertType : String) : Int :=
  (mapGet m.lastVisualUpdate (vehicleId ++ "-" ++ alertType)).getD 0

/-!  ## Theorems  -/

/-- C4: for every key and every transition category — including
`severity_escalation` and `new_alert` — `shouldTriggerVisualNotification`
returns `false` whenever `now` minus the key's last visual-update time is
less than 2000 ms; once the 2-second floor has elapsed, `new_alert` and
`severity_escalation` always notify. -/
theorem hardCooldownFloorAndEscalation (m : AlertStateManager) (v ty : String)
    (cat : StateChange) (now : Int) :
    (now - lvOf m v ty < 2000 →
      shouldTriggerVisualNotification m v ty cat now = false) ∧
    (2000 ≤ now - lvOf m v ty → cat = .new_alert ∨ cat = .severity_escalation →
      shouldTriggerVisualNotification m v ty cat now = true) := by
  unfold shouldTriggerVisualNotification VISUAL_UPDATE_THROTTLE_MS lvOf
  constructor
  · intro h
    simp only [if_pos h]
  · intro h hcat
    rw [if_neg (by omega)]
    rcases hcat with h' | h' <;> simp [h']

/-- Witness for C4: with an empty `lastVisualUpdate` map (last update reads
as 0), an escalation at `now = 1000` is suppressed by the 2-second floor and
an escalation at `now = 2500` notifies. -/
theorem hardCooldownFloorAndEscalation_witness :
    shouldTriggerVisualNotification emptyManager "EV1" "low_battery"
      .severity_escalation 1000 = false ∧
    shouldTriggerVisualNotification emptyManager "EV1" "low_battery"
      .severity_escalation 2500 = true :=
  ⟨(hardCooldownFloorAndEscalation emptyManager "EV1" "low_battery"
      .severity_escalation 1000).1 (by decide),
   (hardCooldownFloorAndEscalation emptyManager "EV1" "low_battery"
      .severity_escalation 2500).2 (by decide) (Or.inr rfl)⟩


/-- C10: `getCachedAlert` never returns an entry aged `CACHE_TTL_MS` or more:
a returned entry is strictly younger than the TTL; a `none` result counts a
miss; a present-but-stale entry is deleted; and after any lookup, whatever
entry remains for the key is strictly younger than the TTL. -/
theorem cacheLookupRespectsTtl (s : AlertService) (v ty : String) (now : Int) :
    (∀ e, (getCachedAlert s v ty now).1 = some e → now - e.createdAt < CACHE_TTL_MS) ∧
    ((getCachedAlert s v ty now).1 = none →
      (getCachedAlert s v ty now).2.stats.cacheMisses = s.stats.cacheMisses + 1) ∧
    (∀ e, mapGet s.activeAlertsCache (getCacheKey v ty) = some e →
      ¬ now - e.createdAt < CACHE_TTL_MS →
      mapGet (getCachedAlert s v ty now).2.activeAlertsCache (getCacheKey v ty) = none) ∧
    (∀ e, mapGet (getCachedAlert s v ty now).2.activeAlertsCache (getCacheKey v ty) = some e →
      now - e.createdAt < CACHE_TTL_MS) := by
  unfold getCachedAlert
  cases hm : mapGet s.activeAlertsCache (getCacheKey v ty) with
  | none =>
      simp only [hm]
      exact ⟨fun e he => by simp at he, fun _ => trivial, fun e hsome _ => by simp at hsome,
        fun e he => by simp at he⟩
  | some cached =>
      simp only [hm]
      by_cases hage : now - cached.createdAt < CACHE_TTL_MS
      · simp only [if_pos hage]
        refine ⟨fun e he => ?_, fun h => by simp at h, fun e hsome hstale => ?_,
          fun e he => ?_⟩
        · cases he
          exact hage
        · cases hsome
          exact (hstale hage).elim
        · rw [hm] at he
          cases he
          exact hage
      · simp only [if_neg hage]
        refine ⟨fun e he => by simp at he, fun _ => trivial,
          fun e _ _ => mapGet_delete_self _ _, fun e he => ?_⟩
        rw [mapGet_delete_self] at he
        exact absurd he (by simp)

/-- A one-entry cache used to witness C10. -/
def c10Service : AlertService :=
  { activeAlertsCache := [("EV1_low_battery", { alertId := "a1", createdAt := 0 })]
    stats := { cacheHits := 0, cacheMisses := 0, alertsCreated := 0, alertsResolved := 0 } }

/-- Witness for C10: a fresh lookup (age 1000 ms) can only return entries
younger than the TTL, and a stale entry (age exactly the TTL) is deleted. -/
theorem cacheLookupRespectsTtl_witness :
    (∀ e, (getCachedAlert c10Service "EV1" "low_battery" 1000).1 = some e →
        1000 - e.createdAt < CACHE_TTL_MS) ∧
    mapGet (getCachedAlert c10Service "EV1" "low_battery" 300000).2.activeAlertsCache
      (getCacheKey "EV1" "low_battery") = none :=
  ⟨(cacheLookupRespectsTtl c10Service "EV1" "low_battery" 1000).1,
   (cacheLookupRespectsTtl c10Service "EV1" "low_battery" 300000).2.2.1
     { alertId := "a1", createdAt := 0 } (by decide) (by decide)⟩

/-- C7: `resolveAlert` removes the cache entry for the key unconditionally
(even when the store update affected zero rows), and increments the
resolution counter exactly when the update affected at least one row. -/
theorem resolveClearsCacheCountsTransitions (s : AlertService) (db : List AlertRow)
    (v ty : String) (now : Int) :
    mapGet (resolveAlert s db v ty now).1.activeAlertsCache (getCacheKey v ty) = none ∧
    (resolveAlert s db v ty now).1.stats.alertsResolved =
      s.stats.alertsResolved +
        (if 0 < (dbResolveUnresolved db v ty now).2 then 1 else 0) := by
  unfold resolveAlert
  by_cases h : (dbResolveUnresolved db v ty now).2 > 0
  · simp only [if_pos h]
    exact ⟨mapGet_delete_self _ _, rfl⟩
  · simp only [if_neg h]
    have h0 : ¬ 0 < (dbResolveUnresolved db v ty now).2 := h
    simp only [if_neg h0, Nat.add_zero]
    exact ⟨mapGet_delete_self _ _, rfl⟩

/-- Valid-hit equation for `getCachedAlert`. -/
theorem getCachedAlert_hit (s : AlertService) (v ty : String) (now : Int) (e : CacheEntry)
    (he : mapGet s.activeAlertsCache (getCacheKey v ty) = some e)
    (hage : now - e.createdAt < CACHE_TTL_MS) :
    getCachedAlert s v ty now =
      (some e, { s with stats := { s.stats with cacheHits := s.stats.cacheHits + 1 } }) := by
  unfold getCachedAlert
  rw [he]
  simp [hage]

/-- Miss result for `getCachedAlert`: when the entry is absent or stale, the
result is `none` and the miss counter is bumped. -/
theorem getCachedAlert_missCount (s : AlertService) (v ty : String) (now : Int)
    (hmiss : (getCachedAlert s v ty now).1 = none) :
    (getCachedAlert s v ty now).2.stats.cacheMisses = s.stats.cacheMisses + 1 := by
  unfold getCachedAlert at hmiss ⊢
  cases hm : mapGet s.activeAlertsCache (getCacheKey v ty) with
  | none => simp [hm]
  | some cached =>
      rw [hm] at hmiss
      by_cases hage : now - cached.createdAt < CACHE_TTL_MS
      · simp [hage] at hmiss
      · simp [hage]

/-- C6: `getExistingAlert` checks the deduplication cache first — a valid
cache hit returns the cached alert id and bumps the hit counter; a miss bumps
the miss counter, falls back to the store's 5-minute unresolved lookup,
populates the cache when the store returns a row, and returns nothing when no
unresolved row for the key exists at all. -/
theorem dedupLookupPath (s : AlertService) (db : List AlertRow)
    (v ty : String) (now : Int) :
    (∀ e, mapGet s.activeAlertsCache (getCacheKey v ty) = some e →
      now - e.createdAt < CACHE_TTL_MS →
      (getExistingAlert s db v ty now).1 = some e.alertId ∧
      (getExistingAlert s db v ty now).2.stats.cacheHits = s.stats.cacheHits + 1) ∧
    ((getCachedAlert s v ty now).1 = none →
      (getExistingAlert s db v ty now).2.stats.cacheMisses = s.stats.cacheMisses + 1 ∧
      (∀ row, dbFindUnresolved db v ty now = some row →
        (getExistingAlert s db v ty now).1 = some row.alert_id ∧
        mapGet (getExistingAlert s db v ty now).2.activeAlertsCache (getCacheKey v ty) =
          some { alertId := row.alert_id, createdAt := now }) ∧
      ((∀ r ∈ db, r.vehicle_id = v → r.alert_type = ty → r.resolved_at ≠ none) →
        (getExistingAlert s db v ty now).1 = none)) := by
  constructor
  · intro e he hage
    unfold getExistingAlert
    rw [getCachedAlert_hit s v ty now e he hage]
    exact ⟨rfl, rfl⟩
  · intro hmiss
    have hstats := getCachedAlert_missCount s v ty now hmiss
    have hsplit : getCachedAlert s v ty now = (none, (getCachedAlert s v ty now).2) := by
      rw [← hmiss]
    refine ⟨?_, ?_, ?_⟩
    · unfold getExistingAlert
      rw [hsplit]
      cases hdb : dbFindUnresolved db v ty now with
      | none => exact hstats
      | some row =>
          simp only
          unfold setCachedAlert
          exact hstats
    · intro row hrow
      unfold getExistingAlert
      rw [hsplit, hrow]
      exact ⟨rfl, by unfold setCachedAlert; exact mapGet_set_self _ _ _⟩
    · intro hnone
      have hdb : dbFindUnresolved db v ty now = none := by
        unfold dbFindUnresolved
        rw [List.find?_eq_none]
        intro r hr
        unfold unresolvedRecentMatch
        simp only [Bool.and_eq_true, decide_eq_true_eq, not_and]
        rintro ⟨⟨hv, hty⟩, hres⟩ _
        exact hnone r hr hv hty hres
      unfold getExistingAlert
      rw [hsplit, hdb]

/-- A service state and store used to witness C6: the cache is empty and the
store holds one unresolved `low_battery` row for `EV1`. -/
def c6Service : AlertService :=
  { activeAlertsCache := []
    stats := { cacheHits := 0, cacheMisses := 0, alertsCreated := 0, alertsResolved := 0 } }

/-- The store row used to witness C6. -/
def c6Row : AlertRow :=
  { alert_id := "a7", vehicle_id := "EV1", alert_type := "low_battery"
    severity := .WARNING, message := "Low battery", data := "soc 12"
    created_at := 1000, acknowledged_at := none, resolved_at := none }

/-- Witness for C6: on a cache miss the miss counter is bumped, the store row
is returned and the cache is populated with its id. -/
theorem dedupLookupPath_witness :
    (getExistingAlert c6Service [c6Row] "EV1" "low_battery" 2000).2.stats.cacheMisses =
      c6Service.stats.cacheMisses + 1 ∧
    (getExistingAlert c6Service [c6Row] "EV1" "low_battery" 2000).1 = some c6Row.alert_id ∧
    mapGet (getExistingAlert c6Service [c6Row] "EV1" "low_battery" 2000).2.activeAlertsCache
      (getCacheKey "EV1" "low_battery") = some { alertId := c6Row.alert_id, createdAt := 2000 } :=
  have h := (dedupLookupPath c6Service [c6Row] "EV1" "low_battery" 2000).2 (by decide)
  ⟨h.1, (h.2.1 c6Row (by decide)).1, (h.2.1 c6Row (by decide)).2⟩

/-- C8: the telemetry relay forwards at most one `telemetry_update` per
vehicle per 500 ms — a sample inside the window is dropped with the state
untouched (nothing is queued), a sample after the window reopens (with the
socket initialised and at least one subscriber) is forwarded and re-arms the
window, and after a forward every sample of that vehicle in the next 500 ms
is dropped. -/
theorem telemetryRelayThrottle (b : Broadcaster) (subs : String → List String)
    (v d1 d2 : String) (ts1 ts2 now1 now2 : Int) :
    (now1 - (mapGet b.lastBroadcastTimes v).getD 0 < 500 →
      broadcastTelemetry b subs v d1 ts1 now1 = (none, b)) ∧
    (b.ioInit = true → subs v ≠ [] →
      500 ≤ now1 - (mapGet b.lastBroadcastTimes v).getD 0 →
      (broadcastTelemetry b subs v d1 ts1 now1).1 = some ⟨v, d1, ts1⟩ ∧
      mapGet (broadcastTelemetry b subs v d1 ts1 now1).2.lastBroadcastTimes v = some now1 ∧
      (now2 - now1 < 500 →
        (broadcastTelemetry (broadcastTelemetry b subs v d1 ts1 now1).2 subs v d2 ts2 now2).1 =
          none)) := by
  constructor
  · intro hwin
    unfold broadcastTelemetry THROTTLE_MS
    by_cases hio : b.ioInit
    · rw [if_pos hio, if_pos hwin]
    · rw [if_neg hio]
  · intro hio hsubs hwin
    have hstep : broadcastTelemetry b subs v d1 ts1 now1 =
        (some ⟨v, d1, ts1⟩,
         { b with lastBroadcastTimes := mapSet b.lastBroadcastTimes v now1 }) := by
      unfold broadcastTelemetry THROTTLE_MS
      rw [if_pos hio, if_neg (by omega), if_neg hsubs]
    refine ⟨by rw [hstep], by rw [hstep]; exact mapGet_set_self _ _ _, ?_⟩
    intro hwin2
    rw [hstep]
    unfold broadcastTelemetry THROTTLE_MS
    rw [if_pos hio, if_pos]
    rw [mapGet_set_self]
    simpa using hwin2

/-- Witness for C8: from a fresh broadcaster with one subscriber, a sample at
`now = 600` is forwarded, and a follow-up sample at `now = 900` is dropped. -/
theorem telemetryRelayThrottle_witness :
    (broadcastTelemetry { ioInit := true, lastBroadcastTimes := [], lastSummary := none }
      (fun _ => ["sock1"]) "EV1" "d1" 580 600).1 = some ⟨"EV1", "d1", 580⟩ ∧
    (broadcastTelemetry
      (broadcastTelemetry { ioInit := true, lastBroadcastTimes := [], lastSummary := none }
        (fun _ => ["sock1"]) "EV1" "d1" 580 600).2
      (fun _ => ["sock1"]) "EV1" "d2" 880 900).1 = none :=
  have h := (telemetryRelayThrottle
    { ioInit := true, lastBroadcastTimes := [], lastSummary := none }
    (fun _ => ["sock1"]) "EV1" "d1" "d2" 580 880 600 900).2
    rfl (by simp) (by decide)
  ⟨h.1, h.2.2 (by decide)⟩

/-- C9: one tick of the summary broadcaster (scheduled every
`SUMMARY_BROADCAST_INTERVAL_MS = 3000` ms) compares the freshly fetched
aggregate by value to the last emitted one and emits it to all clients
exactly when it changed, recording it as the new `lastSummary`; a failed
fetch (the catch branch) emits nothing. -/
theorem summaryBroadcastOnChange (b : Broadcaster) (s : AlertSummary)
    (hio : b.ioInit = true) :
    SUMMARY_BROADCAST_INTERVAL_MS = 3000 ∧
    ((broadcastAlertSummary b (some s)).1 = some s ↔ ¬ some s = b.lastSummary) ∧
    (some s = b.lastSummary → broadcastAlertSummary b (some s) = (none, b)) ∧
    (¬ some s = b.lastSummary →
      (broadcastAlertSummary b (some s)).2.lastSummary = some s) ∧
    broadcastAlertSummary b none = (none, b) := by
  refine ⟨rfl, ?_, ?_, ?_, ?_⟩
  · unfold broadcastAlertSummary
    rw [if_pos hio]
    dsimp only
    by_cases hch : some s = b.lastSummary
    · rw [if_pos hch]
      constructor
      · intro h
        simp at h
      · intro h
        exact absurd hch h
    · rw [if_neg hch]
      simp [hch]
  · intro hch
    unfold broadcastAlertSummary
    rw [if_pos hio]
    dsimp only
    rw [if_pos hch]
  · intro hch
    unfold broadcastAlertSummary
    rw [if_pos hio]
    dsimp only
    rw [if_neg hch]
  · unfold broadcastAlertSummary
    rw [if_pos hio]

/-- The summary value used to witness C9. -/
def c9Summary : AlertSummary :=
  { totalActiveAlerts := 3, criticalVehicles := 1, warningVehicles := 2
    totalVehiclesWithAlerts := 3, alertCountsByType := [("low_battery", .WARNING, 2)] }

/-- Witness for C9: on a fresh broadcaster (no previous summary) the changed
summary is emitted; re-broadcasting the identical summary emits nothing. -/
theorem summaryBroadcastOnChange_witness :
    (broadcastAlertSummary { ioInit := true, lastBroadcastTimes := [], lastSummary := none }
      (some c9Summary)).1 = some c9Summary ∧
    broadcastAlertSummary { ioInit := true, lastBroadcastTimes := [], lastSummary := some c9Summary }
      (some c9Summary) =
      (none, { ioInit := true, lastBroadcastTimes := [], lastSummary := some c9Summary }) :=
  ⟨((summaryBroadcastOnChange
      { ioInit := true, lastBroadcastTimes := [], lastSummary := none } c9Summary rfl).2.1).2
      (by decide),
   ((summaryBroadcastOnChange
      { ioInit := true, lastBroadcastTimes := [], lastSummary := some c9Summary } c9Summary
      rfl).2.2.1) rfl⟩

/-- The first of two racing unresolved rows used for C1. -/
def c1Row1 : AlertRow :=
  { alert_id := "uuid-1", vehicle_id := "EV1", alert_type := "low_battery"
    severity := .WARNING, message := "Low battery", data := "soc 12"
    created_at := 1000, acknowledged_at := none, resolved_at := none }

/-- The second racing unresolved row for the same (vehicle, alert_type). -/
def c1Row2 : AlertRow :=
  { alert_id := "uuid-2", vehicle_id := "EV1", alert_type := "low_battery"
    severity := .WARNING, message := "Low battery", data := "soc 12"
    created_at := 1001, acknowledged_at := none, resolved_at := none }

/-- C1: the durable store does *not* enforce at-most-one-unresolved-per-key —
after two `createAlert` inserts for the same `(vehicle_id, alert_type)` with
no resolve in between, the table satisfies every constraint `schema.sql`
declares (primary key on `alert_id`, foreign key on `vehicle_id`) while
holding two rows with `resolved_at IS NULL` for `("EV1", "low_battery")`,
violating the claimed uniqueness invariant. -/
theorem schemaAllowsDuplicateUnresolved :
    alertsTableOk ["EV1"] (insertAlert (insertAlert [] c1Row1) c1Row2) ∧
    ¬ atMostOneUnresolved (insertAlert (insertAlert [] c1Row1) c1Row2) := by
  constructor
  · unfold alertsTableOk insertAlert c1Row1 c1Row2
    refine ⟨?_, ?_⟩ <;> decide
  · unfold atMostOneUnresolved insertAlert c1Row1 c1Row2
    decide

/-- A manager with one escalated vehicle whose only alert state is stale,
used as the C3 counterexample. -/
def c3Manager : AlertStateManager :=
  { vehicleAlertStates :=
      [("EV1", [("critical_battery",
        { severity := .CRITICAL, first_seen := 0, last_updated := 0, count := 3
          last_notified_severity := some .CRITICAL })])]
    escalatedVehicles := ["EV1"]
    lastVisualUpdate := [] }

/-- Counterexample for C3: the periodic `cleanup` sweep *does* remove a
vehicle from `escalatedVehicles` automatically — here `EV1` is escalated, its
only alert state is over an hour old, and after `cleanup` the escalation set
is empty with no explicit clear. -/
theorem cleanupDropsEscalatedVehicle :
    c3Manager.escalatedVehicles = ["EV1"] ∧
    (cleanup c3Manager 4000000).escalatedVehicles = [] := by
  constructor
  · rfl
  · decide

/-- C3 (amended): escalation-set membership is never removed by
`processAlert`, and the `cleanup` sweep removes a vehicle from the set
exactly when an entry for it exists in `vehicleAlertStates` all of whose
alert states have expired (are older than `EXPIRY_TIME`); in particular a
vehicle with any fresh state, or with no tracked states at all, stays
escalated. -/
theorem escalationClearedOnlyWithLastState (m : AlertStateManager) (now : Int) (v : String) :
    (∀ vid ty sev t, ((processAlert m vid ty sev t).2).escalatedVehicles =
      m.escalatedVehicles) ∧
    (v ∈ (cleanup m now).escalatedVehicles ↔
      v ∈ m.escalatedVehicles ∧
      ¬ ∃ p ∈ m.vehicleAlertStates, p.1 = v ∧
          p.2.filter (fun q => ¬ now - q.2.last_updated > EXPIRY_TIME) = []) := by
  constructor
  · intro vid ty sev t
    rfl
  · have hremoved : ∀ w : String,
        ((List.filter (fun p => p.2 = [])
            (m.vehicleAlertStates.map
              (fun p => (p.1,
                p.2.filter (fun q => ¬ now - q.2.last_updated > EXPIRY_TIME))))).map
          (·.1)).contains w = true ↔
        ∃ p ∈ m.vehicleAlertStates, p.1 = w ∧
          p.2.filter (fun q => ¬ now - q.2.last_updated > EXPIRY_TIME) = [] := by
      intro w
      rw [List.elem_iff]
      constructor
      · intro hw
        rcases List.mem_map.1 hw with ⟨q, hq, rfl⟩
        rcases List.mem_filter.1 hq with ⟨hq1, hq2⟩
        rcases List.mem_map.1 hq1 with ⟨p, hp, rfl⟩
        exact ⟨p, hp, rfl, by simpa using hq2⟩
      · rintro ⟨p, hp, hpv, hfil⟩
        refine List.mem_map.2
          ⟨(p.1, p.2.filter (fun q => ¬ now - q.2.last_updated > EXPIRY_TIME)), ?_, hpv⟩
        exact List.mem_filter.2 ⟨List.mem_map.2 ⟨p, hp, rfl⟩, by simpa using hfil⟩
    unfold cleanup
    constructor
    · intro hv
      have h1 := List.mem_filter.1 hv
      refine ⟨h1.1, fun hex => ?_⟩
      have h2 := h1.2
      rw [decide_eq_true_eq] at h2
      exact h2 ((hremoved v).2 hex)
    · rintro ⟨hmem, hnot⟩
      refine List.mem_filter.2 ⟨hmem, ?_⟩
      rw [decide_eq_true_eq]
      exact fun hc => hnot ((hremoved v).1 hc)

/-- The tracked state of one (vehicle, alert_type) key, as `processAlert`
reads it (`vehicleAlertStates.get(vehicle_id)?.get(alert_type)`). -/
def keyState (m : AlertStateManager) (v ty : String) : Option AlertState :=
  mapGet ((mapGet m.vehicleAlertStates v).getD []) ty

/-- `processAlert` classifies against the key's current state. -/
theorem processAlert_stateChange (m : AlertStateManager) (v ty : String)
    (sev : Severity) (now : Int) :
    (processAlert m v ty sev now).1.stateChange =
      analyzeStateChange (keyState m v ty) sev := rfl

/-- `processAlert` decides notification with `shouldTriggerVisualNotification`
on the classification it just computed. -/
theorem processAlert_shouldNotify (m : AlertStateManager) (v ty : String)
    (sev : Severity) (now : Int) :
    (processAlert m v ty sev now).1.shouldNotify =
      shouldTriggerVisualNotification m v ty
        (analyzeStateChange (keyState m v ty) sev) now := rfl

/-- The state stored for the key by `processAlert`: severity overwritten,
count incremented, `last_updated` stamped. -/
theorem keyState_processAlert (m : AlertStateManager) (v ty : String)
    (sev : Severity) (now : Int) :
    keyState (processAlert m v ty sev now).2 v ty = some
      { severity := sev
        first_seen :=
          match keyState m v ty with
          | some s => if s.first_seen = 0 then now else s.first_seen
          | none => now
        last_updated := now
        count := (match keyState m v ty with | some s => s.count | none => 0) + 1
        last_notified_severity :=
          if (processAlert m v ty sev now).1.shouldNotify then some sev
          else (keyState m v ty).bind (·.last_notified_severity) } := by
  unfold keyState processAlert
  simp only [mapGet_set_self, Option.getD_some]

/-- `processAlert` stamps the key's `lastVisualUpdate` exactly when it
notifies. -/
theorem lvOf_processAlert (m : AlertStateManager) (v ty : String)
    (sev : Severity) (now : Int) :
    lvOf (processAlert m v ty sev now).2 v ty =
      if (processAlert m v ty sev now).1.shouldNotify then now else lvOf m v ty := by
  unfold lvOf processAlert
  by_cases h : shouldTriggerVisualNotification m v ty
      (analyzeStateChange (mapGet ((mapGet m.vehicleAlertStates v).getD []) ty) sev) now
  · simp only [h, if_pos, if_true]
    rw [mapGet_set_self]
    rfl
  · simp only [h, if_false, Bool.false_eq_true]

/-- A true notification decision implies the 2-second floor had elapsed. -/
theorem shouldTrigger_floor (m : AlertStateManager) (v ty : String)
    (cat : StateChange) (now : Int)
    (h : shouldTriggerVisualNotification m v ty cat now = true) :
    2000 ≤ now - lvOf m v ty := by
  unfold shouldTriggerVisualNotification VISUAL_UPDATE_THROTTLE_MS at h
  by_cases hfloor :
      now - (mapGet m.lastVisualUpdate (v ++ "-" ++ ty)).getD 0 < 2000
  · rw [if_pos hfloor] at h
    cases h
  · unfold lvOf
    omega

/-- The key's last visual-update time never decreases across `processAlert`. -/
theorem lvOf_mono (m : AlertStateManager) (v ty : String) (sev : Severity) (now : Int) :
    lvOf m v ty ≤ lvOf (processAlert m v ty sev now).2 v ty := by
  rw [lvOf_processAlert]
  by_cases h : (processAlert m v ty sev now).1.shouldNotify = true
  · rw [if_pos h]
    have := shouldTrigger_floor m v ty (analyzeStateChange (keyState m v ty) sev) now
      (by rw [← processAlert_shouldNotify]; exact h)
    omega
  · rw [if_neg h]

/-- A `repeated_alert` notification requires a quiet period of more than
30 seconds since the key's last visual update. -/
theorem shouldTrigger_repeated (m : AlertStateManager) (v ty : String) (now : Int)
    (h : shouldTriggerVisualNotification m v ty .repeated_alert now = true) :
    30000 < now - lvOf m v ty := by
  unfold shouldTriggerVisualNotification VISUAL_UPDATE_THROTTLE_MS at h
  by_cases hfloor :
      now - (mapGet m.lastVisualUpdate (v ++ "-" ++ ty)).getD 0 < 2000
  · rw [if_pos hfloor] at h
    cases h
  · rw [if_neg hfloor] at h
    simp only [reduceCtorEq, or_self, if_false, if_true, decide_eq_true_eq] at h
    unfold lvOf
    simpa using h

/-- Once the floor has elapsed, a `persistent_issue` classification always
notifies. -/
theorem shouldTrigger_persistent (m : AlertStateManager) (v ty : String) (now : Int)
    (h : 2000 ≤ now - lvOf m v ty) :
    shouldTriggerVisualNotification m v ty .persistent_issue now = true := by
  unfold shouldTriggerVisualNotification VISUAL_UPDATE_THROTTLE_MS
  rw [if_neg (by unfold lvOf at h; omega)]
  simp

/-- Notification via the `repeated_alert` path: the Boolean counted in the
suppression property. -/
def repeatedNotify (r : ProcessResult) : Bool :=
  r.stateChange == .repeated_alert && r.shouldNotify

/-- No event whose timestamp lies within 30 s of the key's last visual update
can notify through the `repeated_alert` path; since the last-update time only
grows, a whole run of such events produces zero repeated-path notifications. -/
theorem countRepeated_zero (v ty : String) :
    ∀ (events : List (Severity × Int)) (m : AlertStateManager),
      (∀ e ∈ events, e.2 ≤ lvOf m v ty + 30000) →
      ((runAlerts m v ty events).1.countP repeatedNotify) = 0 := by
  intro events
  induction events with
  | nil =>
      intro m _
      simp [runAlerts]
  | cons e rest ih =>
      intro m hbound
      obtain ⟨sev, t⟩ := e
      rw [runAlerts]
      simp only [List.countP_cons]
      have hhead : repeatedNotify (processAlert m v ty sev t).1 = false := by
        unfold repeatedNotify
        by_cases hrep : (processAlert m v ty sev t).1.stateChange = .repeated_alert
        · by_cases hnot : (processAlert m v ty sev t).1.shouldNotify = true
          · exfalso
            have hcls : analyzeStateChange (keyState m v ty) sev = .repeated_alert := by
              rw [← processAlert_stateChange m v ty sev t]
              exact hrep
            have hsn : shouldTriggerVisualNotification m v ty .repeated_alert t = true := by
              rw [← hcls, ← processAlert_shouldNotify]
              exact hnot
            have hq := shouldTrigger_repeated m v ty t hsn
            have := hbound (sev, t) (by simp)
            simp only at this
            omega
          · simp [hnot]
        · simp [hrep]
      rw [hhead]
      simp only [Bool.false_eq_true, if_false, Nat.add_zero]
      apply ih
      intro e' he'
      have h1 := hbound e' (by simp [he'])
      have h2 := lvOf_mono m v ty sev t
      omega

/-- Among any run of events on one key whose timestamps pairwise differ by at
most 20 s, at most one notifies through the `repeated_alert` path: the first
such notification stamps the last-visual-update time, and every later event
is within its 30-second quiet window. -/
theorem countRepeated_le_one (v ty : String) :
    ∀ (events : List (Severity × Int)) (m : AlertStateManager),
      (∀ a ∈ events, ∀ b ∈ events, b.2 ≤ a.2 + 20000) →
      ((runAlerts m v ty events).1.countP repeatedNotify) ≤ 1 := by
  intro events
  induction events with
  | nil =>
      intro m _
      simp [runAlerts]
  | cons e rest ih =>
      intro m hpair
      obtain ⟨sev, t⟩ := e
      rw [runAlerts]
      simp only [List.countP_cons]
      by_cases hp : repeatedNotify (processAlert m v ty sev t).1 = true
      · have hnot : (processAlert m v ty sev t).1.shouldNotify = true := by
          simp only [repeatedNotify, Bool.and_eq_true, beq_iff_eq] at hp
          exact hp.2
        have hlv : lvOf (processAlert m v ty sev t).2 v ty = t := by
          rw [lvOf_processAlert, if_pos hnot]
        have hzero : ((runAlerts (processAlert m v ty sev t).2 v ty rest).1.countP
            repeatedNotify) = 0 := by
          apply countRepeated_zero
          intro e' he'
          have := hpair (sev, t) (by simp) e' (by simp [he'])
          simp only at this
          omega
        rw [hzero, hp]
        simp
      · rw [Bool.not_eq_true] at hp
        rw [hp]
        simp only [Bool.false_eq_true, if_false, Nat.add_zero]
        apply ih
        intro a ha b hb
        exact hpair a (by simp [ha]) b (by simp [hb])

/-- Along a chain of timestamps with non-negative gaps of at most 2000 ms,
every later timestamp stays within `2000 * length` of the head. -/
theorem chainGapBound :
    ∀ (x : Int) (xs : List Int),
      List.Chain' (fun a b => a ≤ b ∧ b ≤ a + 2000) (x :: xs) →
      ∀ b ∈ xs, x ≤ b ∧ b ≤ x + 2000 * xs.length := by
  intro x xs
  induction xs generalizing x with
  | nil =>
      intro _ b hb
      cases hb
  | cons y ys ih =>
      intro hchain b hb
      have hxy : x ≤ y ∧ y ≤ x + 2000 := (List.chain'_cons.1 hchain).1
      have htail : List.Chain' (fun a b => a ≤ b ∧ b ≤ a + 2000) (y :: ys) :=
        (List.chain'_cons.1 hchain).2
      rcases hb with _ | hb'
      · constructor
        · exact hxy.1
        · have hlen : (0 : Int) ≤ 2000 * ys.length := by positivity
          simp only [List.length_cons]
          push_cast
          omega
      · have := ih y htail b (by assumption)
        constructor
        · omega
        · simp only [List.length_cons]
          push_cast
          push_cast at this
          omega

/-- C5: for every starting state and every 11 consecutive events on one
(vehicle, alert_type) key whose arrival times are non-decreasing with gaps of
at most 2 seconds, at most one of them triggers a notification through the
`repeated_alert` path (a `repeated_alert` notifies only when more than 30
seconds have passed since the key's last notification, and the total span of
the 11 events is at most 20 seconds). -/
theorem repeatedAlertSuppression (m : AlertStateManager) (v ty : String)
    (events : List (Severity × Int)) (hlen : events.length = 11)
    (hchain : List.Chain' (fun a b => a ≤ b ∧ b ≤ a + 2000) (events.map (·.2))) :
    ((runAlerts m v ty events).1.countP repeatedNotify) ≤ 1 := by
  apply countRepeated_le_one
  cases hev : events with
  | nil => simp [hev] at hlen
  | cons e0 rest =>
      subst hev
      have hmap : (e0 :: rest).map (·.2) = e0.2 :: rest.map (·.2) := rfl
      rw [hmap] at hchain
      have hlenrest : (rest.map (·.2)).length = 10 := by
        simp only [List.length_map]
        simpa using hlen
      have hbnd := chainGapBound e0.2 (rest.map (·.2)) hchain
      rw [hlenrest] at hbnd
      have hall : ∀ u ∈ (e0 :: rest), e0.2 ≤ u.2 ∧ u.2 ≤ e0.2 + 20000 := by
        intro u hu
        rcases hu with _ | hu'
        · omega
        · have : u.2 ∈ rest.map (·.2) := List.mem_map_of_mem _ (by assumption)
          have h := hbnd u.2 this
          omega
      intro a ha b hb
      have hA := hall a ha
      have hB := hall b hb
      omega

/-- Eleven WARNING events on one key, 1 second apart, witnessing C5. -/
def c5Events : List (Severity × Int) :=
  [(.WARNING, 0), (.WARNING, 1000), (.WARNING, 2000), (.WARNING, 3000),
   (.WARNING, 4000), (.WARNING, 5000), (.WARNING, 6000), (.WARNING, 7000),
   (.WARNING, 8000), (.WARNING, 9000), (.WARNING, 10000)]

/-- Witness for C5: a concrete run of 11 WARNING events on one key, 1 second
apart, produces at most one repeated-path notification. -/
theorem repeatedAlertSuppression_witness :
    ((runAlerts emptyManager "EV1" "low_battery" c5Events).1.countP repeatedNotify) ≤ 1 :=
  repeatedAlertSuppression emptyManager "EV1" "low_battery" c5Events
    (by decide) (by norm_num [c5Events, List.chain'_cons])

/-- Eleven WARNING events on one key, 40 seconds apart, exercising the
persistent-issue cadence. -/
def c2Events : List (Severity × Int) :=
  [(.WARNING, 0), (.WARNING, 40000), (.WARNING, 80000), (.WARNING, 120000),
   (.WARNING, 160000), (.WARNING, 200000), (.WARNING, 240000), (.WARNING, 280000),
   (.WARNING, 320000), (.WARNING, 360000), (.WARNING, 400000)]

/-- Counterexample for C2: in a run of same-severity events the 10th
occurrence (index 9) is classified `repeated_alert`, not `persistent_issue` —
`analyzeStateChange` tests the pre-increment count, so the persistent-issue
cadence fires at occurrences 11, 21, 31 (here, index 10). -/
theorem persistentIssueCadence_cex :
    ((runAlerts emptyManager "EV1" "low_battery" c2Events).1.map (·.stateChange)).get? 9 =
      some .repeated_alert ∧
    ((runAlerts emptyManager "EV1" "low_battery" c2Events).1.map (·.stateChange)).get? 10 =
      some .persistent_issue := by
  constructor <;> decide

/-- With equal severities, `analyzeStateChange` reduces to the
pre-increment-count test. -/
theorem analyzeStateChange_same (s : AlertState) (sev : Severity) (hsev : s.severity = sev) :
    analyzeStateChange (some s) sev =
      if s.count ≥ 10 ∧ s.count % 10 = 0 then .persistent_issue else .repeated_alert := by
  unfold analyzeStateChange
  dsimp only
  rw [hsev]
  simp

/-- Cadence invariant: starting from a state tracking the key with severity
`sev` and count `c`, and last visual update at most `T`, a chain of
same-severity events spaced at least 2 s apart notifies through the
`persistent_issue` path exactly at the events whose pre-increment count
`c + i` is a positive multiple of 10. -/
theorem cadence_aux (v ty : String) (sev : Severity) :
    ∀ (times : List Int) (m : AlertStateManager) (c : Nat) (T : Int),
      (∃ s, keyState m v ty = some s ∧ s.severity = sev ∧ s.count = c) →
      lvOf m v ty ≤ T →
      List.Chain' (fun a b => a + 2000 ≤ b) (T :: times) →
      ∀ i r, ((runAlerts m v ty (times.map (fun t => (sev, t)))).1.get? i = some r) →
        ((r.stateChange = .persistent_issue ∧ r.shouldNotify = true) ↔
          (10 ≤ c + i ∧ (c + i) % 10 = 0)) := by
  intro times
  induction times with
  | nil =>
      intro m c T _ _ _ i r hr
      simp [runAlerts] at hr
  | cons t ts ih =>
      intro m c T hinv hlv hchain i r hr
      obtain ⟨s, hks, hsev, hcnt⟩ := hinv
      have hTt : T + 2000 ≤ t := (List.chain'_cons.1 hchain).1
      have htail := (List.chain'_cons.1 hchain).2
      have hcls : analyzeStateChange (keyState m v ty) sev =
          if c ≥ 10 ∧ c % 10 = 0 then .persistent_issue else .repeated_alert := by
        rw [hks, analyzeStateChange_same s sev hsev, hcnt]
      rw [List.map_cons, runAlerts] at hr
      cases i with
      | zero =>
          simp only [List.get?_cons_zero, Option.some.injEq] at hr
          subst hr
          rw [processAlert_stateChange, hcls]
          by_cases hc : c ≥ 10 ∧ c % 10 = 0
          · rw [if_pos hc]
            have hnotify : (processAlert m v ty sev t).1.shouldNotify = true := by
              rw [processAlert_shouldNotify, hcls, if_pos hc]
              exact shouldTrigger_persistent m v ty t (by omega)
            simp only [hnotify, Nat.add_zero]
            simpa using hc
          · rw [if_neg hc]
            simp only [reduceCtorEq, false_and, false_iff, Nat.add_zero]
            exact hc
      | succ j =>
          simp only [List.get?_cons_succ] at hr
          have hnext : ∃ s', keyState (processAlert m v ty sev t).2 v ty = some s' ∧
              s'.severity = sev ∧ s'.count = c + 1 := by
            refine ⟨_, keyState_processAlert m v ty sev t, rfl, ?_⟩
            simp only [hks, hcnt]
          have hlv' : lvOf (processAlert m v ty sev t).2 v ty ≤ t := by
            rw [lvOf_processAlert]
            by_cases hn : (processAlert m v ty sev t).1.shouldNotify = true
            · rw [if_pos hn]
            · rw [if_neg hn]
              omega
          have := ih (processAlert m v ty sev t).2 (c + 1) t hnext hlv' htail j r hr
          have harith : c + 1 + j = c + (j + 1) := by omega
          rwa [harith] at this

/-- C2 (amended): for a run of same-severity events on one key from a fresh
manager, with arrival times non-negative and spaced at least 2 s apart (so
the anti-flicker floor never interferes), an event notifies through the
`persistent_issue` path exactly when its 0-based index `i` satisfies
`10 ≤ i ∧ i % 10 = 0` — i.e. at occurrences 11, 21, 31, …, the events whose
pre-increment occurrence count is a positive multiple of 10; occurrence 10
and occurrences 12–20 produce nothing via that path. -/
theorem persistentIssueCadence (v ty : String) (sev : Severity) (times : List Int)
    (h0 : ∀ t ∈ times, 0 ≤ t)
    (hchain : List.Chain' (fun a b => a + 2000 ≤ b) times) :
    ∀ i r,
      ((runAlerts emptyManager v ty (times.map (fun t => (sev, t)))).1.get? i = some r) →
      ((r.stateChange = .persistent_issue ∧ r.shouldNotify = true) ↔
        (10 ≤ i ∧ i % 10 = 0)) := by
  cases times with
  | nil =>
      intro i r hr
      simp [runAlerts] at hr
  | cons t0 ts =>
      intro i r hr
      have hks0 : keyState emptyManager v ty = none := rfl
      have hcls0 : analyzeStateChange (keyState emptyManager v ty) sev = .new_alert := by
        rw [hks0]
        rfl
      rw [List.map_cons, runAlerts] at hr
      cases i with
      | zero =>
          simp only [List.get?_cons_zero, Option.some.injEq] at hr
          subst hr
          rw [processAlert_stateChange, hcls0]
          simp
      | succ j =>
          simp only [List.get?_cons_succ] at hr
          have hnext : ∃ s', keyState (processAlert emptyManager v ty sev t0).2 v ty = some s' ∧
              s'.severity = sev ∧ s'.count = 1 := by
            refine ⟨_, keyState_processAlert emptyManager v ty sev t0, rfl, ?_⟩
            simp only [hks0]
          have hlv' : lvOf (processAlert emptyManager v ty sev t0).2 v ty ≤ t0 := by
            rw [lvOf_processAlert]
            by_cases hn : (processAlert emptyManager v ty sev t0).1.shouldNotify = true
            · rw [if_pos hn]
            · rw [if_neg hn]
              have h00 : lvOf emptyManager v ty = 0 := rfl
              rw [h00]
              exact h0 t0 (by simp)
          have := cadence_aux v ty sev ts (processAlert emptyManager v ty sev t0).2 1 t0
            hnext hlv' hchain j r hr
          have harith : 1 + j = j + 1 := by omega
          rwa [harith] at this

/-- Twelve WARNING events, 2 seconds apart, witnessing the amended cadence. -/
def c2wEvents : List Int :=
  [0, 2000, 4000, 6000, 8000, 10000, 12000, 14000, 16000, 18000, 20000, 22000]

set_option maxRecDepth 4000 in
/-- Witness for C2 (amended): at index 10 of the 2-second-spaced run the
event is classified `persistent_issue` and notifies, matching
`10 ≤ 10 ∧ 10 % 10 = 0`. -/
theorem persistentIssueCadence_witness :
    (({ shouldNotify := true, stateChange := .persistent_issue, alertCount := 11 } :
        ProcessResult).stateChange = .persistent_issue ∧
      ({ shouldNotify := true, stateChange := .persistent_issue, alertCount := 11 } :
        ProcessResult).shouldNotify = true) ↔
    (10 ≤ 10 ∧ 10 % 10 = 0) :=
  persistentIssueCadence "EV1" "low_battery" .WARNING c2wEvents
    (by decide) (by norm_num [c2wEvents, List.chain'_cons]) 10
    { shouldNotify := true, stateChange := .persistent_issue, alertCount := 11 }
    (by decide)
